import Mathlib

/-!
Verification of the `requiredrouteannotations` admission plugin
(HSTS required-route-annotations policy evaluation).

The development shallow-embeds the policy-evaluation core:
`isRouteHSTSAllowed`, `hstsConfigFromRoute`, `meetsRequirements`,
`requiredNamespaceDomainMatchesRoute`, `matchesDomain` and
`matchesNamespaceSelector`.  External-library behaviour (the Go `regexp`
engine used for domain patterns and `LabelSelectorAsSelector` from
apimachinery) is abstracted as an `ExternalLib` record of functions,
since those are third-party dependencies the plugin only composes.
Strings are processed as `List Char`; Go's `strings.ToLower` is modelled
by ASCII per-character lowering (adequate for ASCII inputs, which all
relevant tokens are).
-/

set_option maxHeartbeats 1000000

namespace RequiredRouteAnnotations

/-- `routeapi.TLSConfig` (subset used): the `Termination` field,
a string-typed enum in the source. -/
structure TLSConfig where
  termination : String
deriving DecidableEq

/-- One entry of `route.Status.Ingress` (subset used): the observed host. -/
structure RouteIngress where
  host : String
deriving DecidableEq

/-- `routeapi.Route` (subset used by the plugin): object name, the
annotations map, `Spec.Host`, `Spec.TLS` and `Status.Ingress`. -/
structure Route where
  name : String
  annotations : List (String × String)
  host : String
  tls : Option TLSConfig
  statusIngress : List RouteIngress
deriving DecidableEq

/-- `corev1.Namespace` (subset used): its labels. -/
structure Namespace where
  labels : List (String × String)
deriving DecidableEq

/-- `metav1.LabelSelectorRequirement`: key, operator (string enum), values. -/
structure LabelSelectorRequirement where
  key : String
  operator : String
  values : List String
deriving DecidableEq

/-- `metav1.LabelSelector`: matchLabels and matchExpressions. -/
structure LabelSelector where
  matchLabels : List (String × String)
  matchExpressions : List LabelSelectorRequirement
deriving DecidableEq

/-- `configv1.MaxAgePolicy`: optional int32 bounds. -/
structure MaxAgePolicy where
  largestMaxAge : Option Int
  smallestMaxAge : Option Int
deriving DecidableEq

/-- `configv1.RequiredHSTSPolicy` (fields used by the plugin). -/
structure RequiredHSTSPolicy where
  namespaceSelector : Option LabelSelector
  domainPatterns : List String
  maxAge : MaxAgePolicy
  preloadPolicy : String
  includeSubDomainsPolicy : String
deriving DecidableEq

/-- `configv1.Ingress` (subset used): `Spec.RequiredHSTSPolicies`. -/
structure Ingress where
  requiredHSTSPolicies : List RequiredHSTSPolicy
deriving DecidableEq

/-- The external-library functions the plugin composes.
`regexFullMatch p s` models
`regexp.MustCompile(fmt.Sprintf("^%s$", p)).MatchString(s)` — the
fully-anchored Go regex match used for domain patterns.
`labelSelectorAsSelector` models apimachinery's
`metav1.LabelSelectorAsSelector`: either a structural error for a
malformed selector, or a predicate on a label set. -/
structure ExternalLib where
  regexFullMatch : String → String → Bool
  labelSelectorAsSelector : LabelSelector → Except String (List (String × String) → Bool)

/-- `routeapi.TLSTerminationEdge`. -/
def TLSTerminationEdge : String := "edge"

/-- `routeapi.TLSTerminationReencrypt`. -/
def TLSTerminationReencrypt : String := "reencrypt"

/-- `routeapi.TLSTerminationPassthrough`. -/
def TLSTerminationPassthrough : String := "passthrough"

/-- `configv1.RequirePreloadPolicy`. -/
def RequirePreloadPolicy : String := "RequirePreload"

/-- `configv1.RequireNoPreloadPolicy`. -/
def RequireNoPreloadPolicy : String := "RequireNoPreload"

/-- `configv1.NoOpinionPreloadPolicy`. -/
def NoOpinionPreloadPolicy : String := "NoOpinion"

/-- `configv1.RequireIncludeSubDomains`. -/
def RequireIncludeSubDomains : String := "RequireIncludeSubDomains"

/-- `configv1.RequireNoIncludeSubDomains`. -/
def RequireNoIncludeSubDomains : String := "RequireNoIncludeSubDomains"

/-- `configv1.NoOpinionIncludeSubDomains`. -/
def NoOpinionIncludeSubDomains : String := "NoOpinion"

/-- The HSTS annotation key `haproxy.router.openshift.io/hsts_header`. -/
def hstsAnnotationKey : String := "haproxy.router.openshift.io/hsts_header"

/-- Go map indexing `m[key]` on a `map[string]string`: the value if the
key is present, the empty string otherwise. -/
def lookupAnn (anns : List (String × String)) (key : String) : String :=
  match anns.find? (fun p => p.1 == key) with
  | some p => p.2
  | none => ""

/-- `strings.ReplaceAll(s, " ", "")` on a char list: drop every space. -/
def removeSpaces : List Char → List Char
  | [] => []
  | c :: cs => if c = ' ' then removeSpaces cs else c :: removeSpaces cs

/-- `strings.ToLower` modelled per character (ASCII lowering). -/
def lowerAscii (l : List Char) : List Char :=
  l.map Char.toLower

/-- `strings.Split(s, ";")`: split at every semicolon; `n` separators
yield `n+1` pieces (so the empty input yields one empty piece). -/
def splitSemi : List Char → List (List Char)
  | [] => [[]]
  | c :: cs =>
    if c = ';' then [] :: splitSemi cs
    else
      match splitSemi cs with
      | t :: ts => (c :: t) :: ts
      | [] => [[c]]

/-- `strings.EqualFold`, modelled by ASCII case-insensitive equality. -/
def equalFold (a b : List Char) : Bool :=
  lowerAscii a == lowerAscii b

/-- The literal part of the regex `max-age=(\d+)`. -/
def maxAgeLit : List Char := "max-age=".toList

/-- Greedy `\d+`: maximal leading run of ASCII digits. -/
def digitSpan : List Char → List Char
  | [] => []
  | c :: cs => if c.isDigit then c :: digitSpan cs else []

/-- Whether the regex `max-age=(\d+)` matches at the head of `l`:
the 8-char literal `max-age=` followed by at least one digit. -/
def maxAgeHere (l : List Char) : Bool :=
  maxAgeLit.isPrefixOf l &&
    match l.drop 8 with
    | c :: _ => c.isDigit
    | [] => false

/-- `regexp.MustCompile("max-age=(\d+)").FindStringSubmatch`: leftmost
match wins; the capture group is the maximal digit run after the
literal.  Returns `none` when the regex matches nowhere. -/
def findMaxAgeDigits : List Char → Option (List Char)
  | [] => none
  | c :: cs =>
    if maxAgeHere (c :: cs) then some (digitSpan ((c :: cs).drop 8))
    else findMaxAgeDigits cs

/-- Digit run to its decimal value. -/
def digitsToNat (l : List Char) : Nat :=
  l.foldl (fun acc c => acc * 10 + (c.toNat - 48)) 0

/-- `strconv.ParseInt(s, 10, 32)` on an all-digit string: the value if it
fits in int32, otherwise the strconv range error. -/
def parseInt32 (l : List Char) : Except String Int :=
  let n := digitsToNat l
  if n > 2147483647 then
    .error ("strconv.ParseInt: parsing \"" ++ String.mk l ++ "\": value out of range")
  else
    .ok (n : Int)

/-- The parsed HSTS annotation (`hstsConfig` in the source). -/
structure hstsConfig where
  maxAge : Int
  preload : Bool
  includeSubDomains : Bool
deriving DecidableEq

/-- The normalized annotation value: the route's HSTS annotation with
spaces removed and lower-cased (`trimmed` in the source). -/
def trimmedAnn (route : Route) : List Char :=
  lowerAscii (removeSpaces (lookupAnn route.annotations hstsAnnotationKey).toList)

/-- `hstsConfigFromRoute`: parse the hstsConfig fields out of the
annotation.  Tokens are split on `;`; `includeSubDomains` and `preload`
are recognized case-insensitively; unrecognized tokens are ignored;
`max-age=<digits>` is extracted by regex anywhere in the normalized
string and must be present and fit int32. -/
def hstsConfigFromRoute (route : Route) : Except String hstsConfig :=
  let trimmed := trimmedAnn route
  let tokens := splitSemi trimmed
  let includeSubDomains := tokens.any (fun t => equalFold t "includeSubDomains".toList)
  let preload := tokens.any (fun t => equalFold t "preload".toList)
  match findMaxAgeDigits trimmed with
  | some ds =>
    match parseInt32 ds with
    | .error e => .error e
    | .ok age => .ok { maxAge := age, preload := preload, includeSubDomains := includeSubDomains }
  | none => .error "max-age must be set in HSTS annotation"

/-- The first block of `meetsRequirements`: the `LargestMaxAge` bound.
Applies only when the bound is set and non-negative. -/
def checkLargest (c : hstsConfig) (requirement : RequiredHSTSPolicy) : Except String Unit :=
  match requirement.maxAge.largestMaxAge with
  | some largest =>
    if 0 ≤ largest ∧ largest < c.maxAge then
      .error ("does not match maximum age " ++ toString largest)
    else .ok ()
  | none => .ok ()

/-- The second block of `meetsRequirements`: the `SmallestMaxAge` bound.
Applies only when the bound is set and non-negative. -/
def checkSmallest (c : hstsConfig) (requirement : RequiredHSTSPolicy) : Except String Unit :=
  match requirement.maxAge.smallestMaxAge with
  | some smallest =>
    if 0 ≤ smallest ∧ c.maxAge < smallest then
      .error ("does not match minimum age " ++ toString smallest)
    else .ok ()
  | none => .ok ()

/-- The `switch requirement.PreloadPolicy` block of `meetsRequirements`.
The Go switch has no default case, so an unrecognized policy string
imposes no constraint. -/
def checkPreloadPolicy (c : hstsConfig) (requirement : RequiredHSTSPolicy) : Except String Unit :=
  if requirement.preloadPolicy == NoOpinionPreloadPolicy then .ok ()
  else if requirement.preloadPolicy == RequirePreloadPolicy then
    if c.preload then .ok () else .error "preload must be specified"
  else if requirement.preloadPolicy == RequireNoPreloadPolicy then
    if c.preload then .error "preload must not be specified" else .ok ()
  else .ok ()

/-- The `switch requirement.IncludeSubDomainsPolicy` block of
`meetsRequirements`.  No default case in the Go switch. -/
def checkIncludeSubDomainsPolicy (c : hstsConfig) (requirement : RequiredHSTSPolicy) : Except String Unit :=
  if requirement.includeSubDomainsPolicy == NoOpinionIncludeSubDomains then .ok ()
  else if requirement.includeSubDomainsPolicy == RequireIncludeSubDomains then
    if c.includeSubDomains then .ok () else .error "includeSubDomains must be specified"
  else if requirement.includeSubDomainsPolicy == RequireNoIncludeSubDomains then
    if c.includeSubDomains then .error "includeSubDomains must not be specified" else .ok ()
  else .ok ()

/-- `(*hstsConfig).meetsRequirements`: the four checks in source order
with early return on the first failure. -/
def hstsConfig.meetsRequirements (c : hstsConfig) (requirement : RequiredHSTSPolicy) : Except String Unit :=
  match checkLargest c requirement with
  | .error e => .error e
  | .ok _ =>
    match checkSmallest c requirement with
    | .error e => .error e
    | .ok _ =>
      match checkPreloadPolicy c requirement with
      | .error e => .error e
      | .ok _ => checkIncludeSubDomainsPolicy c requirement

/-- `matchesDomain`: every required pattern (fully anchored) is tried
against every candidate domain; the first match returns true. -/
def matchesDomain (ext : ExternalLib) (domainMatchers : List String) (domains : List String) : Bool :=
  domainMatchers.any fun matcher => domains.any fun candidate => ext.regexFullMatch matcher candidate

/-- `getParsedNamespaceSelector`: delegates to apimachinery's
`LabelSelectorAsSelector`. -/
def getParsedNamespaceSelector (ext : ExternalLib) (nsSelector : LabelSelector) :
    Except String (List (String × String) → Bool) :=
  ext.labelSelectorAsSelector nsSelector

/-- `matchesNamespaceSelector`: a nil selector matches every namespace;
a selector that fails to parse is a hard error; otherwise the parsed
selector is applied to the namespace's labels. -/
def matchesNamespaceSelector (ext : ExternalLib) (nsSelector : Option LabelSelector) (ns : Namespace) :
    Except String Bool :=
  match nsSelector with
  | none => .ok true
  | some sel =>
    match getParsedNamespaceSelector ext sel with
    | .error e => .error e
    | .ok selector => .ok (selector ns.labels)

/-- `requiredNamespaceDomainMatchesRoute`: evaluate the namespace
selector (propagating selector errors), gather the candidate domains
(spec host first, then status ingress hosts), and test the domain
patterns. -/
def requiredNamespaceDomainMatchesRoute (ext : ExternalLib) (requirement : RequiredHSTSPolicy)
    (route : Route) (ns : Namespace) : Except String (Bool × Bool) :=
  match matchesNamespaceSelector ext requirement.namespaceSelector ns with
  | .error e => .error e
  | .ok matchesNamespace =>
    let routeDomains := route.host :: route.statusIngress.map RouteIngress.host
    .ok (matchesNamespace, matchesDomain ext requirement.domainPatterns routeDomains)

/-- The requirement loop of `isRouteHSTSAllowed`: walk the ordered list;
propagate matcher errors; skip requirements whose namespace/domain
predicates do not both hold; at the first full match, parse the
annotation and validate it, and stop (only the first matching rule is
checked).  An exhausted list means the route is automatically allowed. -/
def processHSTSRequirements (ext : ExternalLib) (newRoute : Route) (ns : Namespace) :
    List RequiredHSTSPolicy → Except String Unit
  | [] => .ok ()
  | requirement :: rest =>
    match requiredNamespaceDomainMatchesRoute ext requirement newRoute ns with
    | .error e => .error e
    | .ok (matchesReqNamespace, matchesReqDomain) =>
      if !(matchesReqNamespace && matchesReqDomain) then
        processHSTSRequirements ext newRoute ns rest
      else
        match hstsConfigFromRoute newRoute with
        | .error e => .error e
        | .ok routeHSTS =>
          match routeHSTS.meetsRequirements requirement with
          | .error requirementErr => .error requirementErr
          | .ok _ => .ok ()

/-- `isRouteHSTSAllowed`: `.ok ()` iff the route is allowed; otherwise
the denial reason.  A route with no TLS config is always denied; a TLS
termination other than edge/reencrypt is always allowed (logged only);
otherwise the required-HSTS-policy list is consulted. -/
def isRouteHSTSAllowed (ext : ExternalLib) (ingress : Ingress) (newRoute : Route) (ns : Namespace) :
    Except String Unit :=
  match newRoute.tls with
  | some tls =>
    if tls.termination == TLSTerminationEdge || tls.termination == TLSTerminationReencrypt then
      processHSTSRequirements ext newRoute ns ingress.requiredHSTSPolicies
    else
      .ok ()
  | none =>
    .error ("termination type is empty, must be " ++ TLSTerminationEdge ++ " or " ++ TLSTerminationReencrypt)

/-- Spec-side reading of "the normalized string contains a
`max-age=<digits>` substring": at some position of the char list the
literal `max-age=` occurs immediately followed by a digit.  This is a
second formulation, independent of the parser's left-to-right scan. -/
def containsMaxAgePattern (l : List Char) : Bool :=
  (List.range l.length).any fun i => maxAgeHere (l.drop i)

/-! ### Helper lemmas -/

/-- With TLS set to an Edge/Reencrypt termination, the evaluator is the
requirement loop. -/
theorem isRouteHSTSAllowed_eq_process (ext : ExternalLib) (ing : Ingress) (route : Route)
    (ns : Namespace) (tlsc : TLSConfig) (htls : route.tls = some tlsc)
    (hterm : tlsc.termination = TLSTerminationEdge ∨ tlsc.termination = TLSTerminationReencrypt) :
    isRouteHSTSAllowed ext ing route ns =
      processHSTSRequirements ext route ns ing.requiredHSTSPolicies := by
  rcases hterm with h | h <;>
    simp [isRouteHSTSAllowed, htls, h, TLSTerminationEdge, TLSTerminationReencrypt]

/-- A TLS termination that is neither Edge nor Reencrypt is allowed
unconditionally. -/
theorem allowed_of_other_termination (ext : ExternalLib) (ing : Ingress) (route : Route)
    (ns : Namespace) (tlsc : TLSConfig) (htls : route.tls = some tlsc)
    (hedge : tlsc.termination ≠ TLSTerminationEdge)
    (hre : tlsc.termination ≠ TLSTerminationReencrypt) :
    isRouteHSTSAllowed ext ing route ns = .ok () := by
  unfold isRouteHSTSAllowed
  rw [htls]
  have h1 : (tlsc.termination == TLSTerminationEdge) = false := by
    simpa using hedge
  have h2 : (tlsc.termination == TLSTerminationReencrypt) = false := by
    simpa using hre
  simp [h1, h2]

/-- A route with no TLS config is denied with the fixed message. -/
theorem denied_of_no_tls (ext : ExternalLib) (ing : Ingress) (route : Route) (ns : Namespace)
    (htls : route.tls = none) :
    isRouteHSTSAllowed ext ing route ns =
      .error "termination type is empty, must be edge or reencrypt" := by
  unfold isRouteHSTSAllowed
  rw [htls]
  rfl

/-- Skipping a prefix of requirements none of which match both
predicates leaves the loop's result unchanged. -/
theorem processHSTSRequirements_append (ext : ExternalLib) (route : Route) (ns : Namespace)
    (pre rest : List RequiredHSTSPolicy)
    (hpre : ∀ q ∈ pre, ∃ mN mD,
      requiredNamespaceDomainMatchesRoute ext q route ns = .ok (mN, mD) ∧ (mN && mD) = false) :
    processHSTSRequirements ext route ns (pre ++ rest) =
      processHSTSRequirements ext route ns rest := by
  induction pre with
  | nil => rfl
  | cons r pre ih =>
    obtain ⟨mN, mD, hok, hno⟩ := hpre r (List.mem_cons_self r pre)
    have ihh := ih (fun q hq => hpre q (List.mem_cons_of_mem r hq))
    rw [List.cons_append]
    simp only [processHSTSRequirements, hok]
    rw [hno]
    simpa using ihh

/-- At the first requirement whose namespace and domain predicates both
hold, the loop's result is exactly that requirement's verdict on the
parsed annotation, independent of all later requirements. -/
theorem processHSTSRequirements_cons_match (ext : ExternalLib) (route : Route) (ns : Namespace)
    (requirement : RequiredHSTSPolicy) (rest : List RequiredHSTSPolicy)
    (hm : requiredNamespaceDomainMatchesRoute ext requirement route ns = .ok (true, true)) :
    processHSTSRequirements ext route ns (requirement :: rest) =
      (match hstsConfigFromRoute route with
       | .error e => .error e
       | .ok cfg => cfg.meetsRequirements requirement) := by
  simp only [processHSTSRequirements, hm]
  cases h : hstsConfigFromRoute route with
  | error e => simp
  | ok cfg =>
    simp only [Bool.and_self, Bool.not_true, Bool.false_eq_true, if_false]
    cases h2 : cfg.meetsRequirements requirement with
    | error e => rfl
    | ok u => cases u; rfl

/-- If the `max-age=<digit>` pattern matches at no position, the
left-to-right scan finds nothing. -/
theorem findMaxAgeDigits_eq_none_of_forall (l : List Char)
    (h : ∀ i, maxAgeHere (l.drop i) = false) :
    findMaxAgeDigits l = none := by
  induction l with
  | nil => rfl
  | cons c cs ih =>
    have h0 := h 0
    simp only [List.drop_zero] at h0
    simp only [findMaxAgeDigits, h0]
    simp only [Bool.false_eq_true, if_false]
    exact ih (fun i => by have hi := h (i + 1); simpa using hi)

/-- From the spec-side substring check being false, the pattern matches
at no position. -/
theorem maxAgeHere_false_of_not_contains (l : List Char)
    (h : containsMaxAgePattern l = false) (i : Nat) :
    maxAgeHere (l.drop i) = false := by
  by_cases hi : i < l.length
  · cases hb : maxAgeHere (l.drop i) with
    | false => rfl
    | true =>
      have hc : containsMaxAgePattern l = true := by
        unfold containsMaxAgePattern
        exact List.any_eq_true.mpr ⟨i, List.mem_range.mpr hi, hb⟩
      rw [h] at hc
      exact Bool.noConfusion hc
  · have hdrop : l.drop i = [] := List.drop_eq_nil_of_le (Nat.le_of_not_lt hi)
    rw [hdrop]
    rfl

/-- A normalized annotation with no `max-age=<digits>` substring makes
the parser fail with the fixed ParseError. -/
theorem hstsConfigFromRoute_error_of_no_pattern (route : Route)
    (h : containsMaxAgePattern (trimmedAnn route) = false) :
    hstsConfigFromRoute route = .error "max-age must be set in HSTS annotation" := by
  have hnone : findMaxAgeDigits (trimmedAnn route) = none :=
    findMaxAgeDigits_eq_none_of_forall _ (maxAgeHere_false_of_not_contains _ h)
  simp only [hstsConfigFromRoute, hnone]

/-! ### Concrete fixtures -/

/-- A regex engine for literal patterns (anchored match is equality),
with a selector parser accepting every selector as match-everything. -/
def extLiteral : ExternalLib :=
  ⟨fun p s => p == s, fun _ => .ok (fun _ => true)⟩

/-- An engine under which no domain pattern matches any candidate. -/
def extNoMatch : ExternalLib :=
  ⟨fun _ _ => false, fun _ => .ok (fun _ => true)⟩

/-- An engine whose selector parser rejects every selector with the
malformed-operator error, modelling a structurally invalid selector. -/
def extBadSelector : ExternalLib :=
  ⟨fun p s => p == s, fun _ => .error "\"BadOperator\" is not a valid label selector operator"⟩

def nsFixture : Namespace := ⟨[("team", "alpha")]⟩

def routeEdge : Route :=
  ⟨"frontend", [(hstsAnnotationKey, "max-age=3600; includeSubDomains; preload")],
   "app.example.com", some ⟨"edge"⟩, []⟩

def routeNoTLS : Route := ⟨"frontend", [], "app.example.com", none, []⟩

def routePassthrough : Route :=
  ⟨"frontend", [(hstsAnnotationKey, "garbage")], "app.example.com", some ⟨"passthrough"⟩, []⟩

def routeEmptyTermination : Route := ⟨"frontend", [], "app.example.com", some ⟨""⟩, []⟩

def routeBadAnn : Route :=
  ⟨"frontend", [(hstsAnnotationKey, "maxAge=3600; includeSubDomains; preload")],
   "app.example.com", some ⟨"edge"⟩, []⟩

def routeNoMaxAge : Route :=
  ⟨"frontend", [(hstsAnnotationKey, "includeSubDomains")], "app.example.com", some ⟨"edge"⟩, []⟩

/-- A matching requirement with no constraints. -/
def reqPermissive : RequiredHSTSPolicy :=
  ⟨none, ["app.example.com"], ⟨none, none⟩, "NoOpinion", "NoOpinion"⟩

/-- A matching requirement the fixture annotation violates
(minimum age 999999). -/
def reqStrict : RequiredHSTSPolicy :=
  ⟨none, ["app.example.com"], ⟨none, some 999999⟩, "NoOpinion", "NoOpinion"⟩

/-- A requirement with max-age bounds smallest 100, largest 200. -/
def reqBounds : RequiredHSTSPolicy :=
  ⟨none, [], ⟨some 200, some 100⟩, "NoOpinion", "NoOpinion"⟩

/-- A requirement with no max-age bounds. -/
def reqNoBounds : RequiredHSTSPolicy :=
  ⟨none, [], ⟨none, none⟩, "NoOpinion", "NoOpinion"⟩

/-- A requirement carrying a namespace selector with a malformed
operator. -/
def reqWithSelector : RequiredHSTSPolicy :=
  ⟨some ⟨[], [⟨"team", "BadOperator", []⟩]⟩, ["app.example.com"], ⟨none, none⟩,
   "NoOpinion", "NoOpinion"⟩

/-! ### Claims -/

/-- C1: first-match selection.  For every policy configuration of the
form `pre ++ R1 :: mid ++ R2 :: post` where no requirement of `pre`
matches and both R1 (earlier) and R2 (later) have namespace-selector and
domain-pattern predicates matching the route (TLS termination Edge or
Reencrypt), the decision is exactly R1's verdict on the parsed
annotation — Allow when it satisfies R1, Deny with R1's failure reason
otherwise — regardless of R2 and of everything after R1. -/
theorem C1_first_match_wins (ext : ExternalLib) (newRoute : Route) (ns : Namespace)
    (tlsc : TLSConfig) (pre mid post : List RequiredHSTSPolicy) (r1 r2 : RequiredHSTSPolicy)
    (htls : newRoute.tls = some tlsc)
    (hterm : tlsc.termination = TLSTerminationEdge ∨ tlsc.termination = TLSTerminationReencrypt)
    (hpre : ∀ q ∈ pre, ∃ mN mD,
      requiredNamespaceDomainMatchesRoute ext q newRoute ns = .ok (mN, mD) ∧ (mN && mD) = false)
    (hr1 : requiredNamespaceDomainMatchesRoute ext r1 newRoute ns = .ok (true, true))
    (_hr2 : requiredNamespaceDomainMatchesRoute ext r2 newRoute ns = .ok (true, true)) :
    isRouteHSTSAllowed ext ⟨pre ++ r1 :: (mid ++ r2 :: post)⟩ newRoute ns =
      (match hstsConfigFromRoute newRoute with
       | .error e => .error e
       | .ok cfg => cfg.meetsRequirements r1) := by
  rw [isRouteHSTSAllowed_eq_process ext ⟨pre ++ r1 :: (mid ++ r2 :: post)⟩ newRoute ns tlsc htls hterm]
  show processHSTSRequirements ext newRoute ns (pre ++ r1 :: (mid ++ r2 :: post)) = _
  rw [processHSTSRequirements_append ext newRoute ns pre _ hpre]
  exact processHSTSRequirements_cons_match ext newRoute ns r1 _ hr1

/-- C1 witness: with R1 permissive and R2 violated by the route's
annotation, `[R1, R2]` allows the route, although R2 alone would deny
it. -/
theorem C1_first_match_wins_witness :
    isRouteHSTSAllowed extLiteral ⟨[reqPermissive, reqStrict]⟩ routeEdge nsFixture = .ok () ∧
    isRouteHSTSAllowed extLiteral ⟨[reqStrict]⟩ routeEdge nsFixture =
      .error "does not match minimum age 999999" :=
  ⟨(C1_first_match_wins extLiteral routeEdge nsFixture ⟨"edge"⟩ [] [] [] reqPermissive reqStrict
      rfl (Or.inl rfl) (by simp) rfl rfl).trans rfl,
   rfl⟩

/-- C2: a route with no TLS termination configured (nil TLS config) is
denied with the ConfigError message, regardless of policy configuration,
namespace and annotation content. -/
theorem C2_no_tls_denied (ext : ExternalLib) (ing : Ingress) (route : Route) (ns : Namespace)
    (htls : route.tls = none) :
    isRouteHSTSAllowed ext ing route ns =
      .error "termination type is empty, must be edge or reencrypt" :=
  denied_of_no_tls ext ing route ns htls

/-- C2 witness at a concrete TLS-less route. -/
theorem C2_no_tls_denied_witness :
    isRouteHSTSAllowed extLiteral ⟨[reqStrict]⟩ routeNoTLS nsFixture =
      .error "termination type is empty, must be edge or reencrypt" :=
  C2_no_tls_denied extLiteral ⟨[reqStrict]⟩ routeNoTLS nsFixture rfl

/-- C3: a route whose TLS termination is configured but neither Edge nor
Reencrypt is allowed unconditionally, regardless of policy configuration
and annotation content. -/
theorem C3_other_termination_allowed (ext : ExternalLib) (ing : Ingress) (route : Route)
    (ns : Namespace) (tlsc : TLSConfig) (htls : route.tls = some tlsc)
    (hedge : tlsc.termination ≠ TLSTerminationEdge)
    (hre : tlsc.termination ≠ TLSTerminationReencrypt) :
    isRouteHSTSAllowed ext ing route ns = .ok () :=
  allowed_of_other_termination ext ing route ns tlsc htls hedge hre

/-- C3 witness: Passthrough route with an unparsable annotation and a
matching strict requirement is still allowed. -/
theorem C3_other_termination_allowed_witness :
    isRouteHSTSAllowed extLiteral ⟨[reqStrict]⟩ routePassthrough nsFixture = .ok () :=
  C3_other_termination_allowed extLiteral ⟨[reqStrict]⟩ routePassthrough nsFixture
    ⟨"passthrough"⟩ rfl (by decide) (by decide)

/-- C4: with TLS termination Edge or Reencrypt, if no requirement's
namespace and domain predicates both match the route, the decision is
Allow for every annotation content (the annotations field is replaced by
an arbitrary map and the result is unchanged). -/
theorem C4_no_requirement_matches_allows (ext : ExternalLib) (ing : Ingress) (newRoute : Route)
    (ns : Namespace) (tlsc : TLSConfig) (anns : List (String × String))
    (htls : newRoute.tls = some tlsc)
    (hterm : tlsc.termination = TLSTerminationEdge ∨ tlsc.termination = TLSTerminationReencrypt)
    (hall : ∀ q ∈ ing.requiredHSTSPolicies, ∃ mN mD,
      requiredNamespaceDomainMatchesRoute ext q newRoute ns = .ok (mN, mD) ∧ (mN && mD) = false) :
    isRouteHSTSAllowed ext ing { newRoute with annotations := anns } ns = .ok () := by
  have htls' : ({ newRoute with annotations := anns } : Route).tls = some tlsc := htls
  rw [isRouteHSTSAllowed_eq_process ext ing _ ns tlsc htls' hterm]
  have hall' : ∀ q ∈ ing.requiredHSTSPolicies, ∃ mN mD,
      requiredNamespaceDomainMatchesRoute ext q { newRoute with annotations := anns } ns =
        .ok (mN, mD) ∧ (mN && mD) = false := hall
  rw [← List.append_nil ing.requiredHSTSPolicies]
  exact processHSTSRequirements_append ext _ ns ing.requiredHSTSPolicies [] hall'

/-- C4 witness: a non-matching engine, a garbage annotation, an Edge
route: allowed. -/
theorem C4_no_requirement_matches_allows_witness :
    isRouteHSTSAllowed extNoMatch ⟨[reqPermissive]⟩
      { routeEdge with annotations := [(hstsAnnotationKey, "complete garbage")] } nsFixture =
      .ok () :=
  C4_no_requirement_matches_allows extNoMatch ⟨[reqPermissive]⟩ routeEdge nsFixture ⟨"edge"⟩
    [(hstsAnnotationKey, "complete garbage")] rfl (Or.inl rfl)
    (by intro q hq; simp at hq; subst hq; exact ⟨true, false, rfl, rfl⟩)

/-- C5 counterexample: the annotation string
`maxAge=3600; includeSubDomains; preload` (exactly as the claim states
it) does not parse into a config — the extraction regex requires the
hyphenated `max-age=` form, so parsing fails with the ParseError. -/
theorem C5_roundtrip_counterexample :
    hstsConfigFromRoute routeBadAnn = .error "max-age must be set in HSTS annotation" ∧
    hstsConfigFromRoute routeBadAnn ≠ .ok ⟨3600, true, true⟩ := by
  constructor
  · rfl
  · intro hcontra
    have h0 : hstsConfigFromRoute routeBadAnn =
        .error "max-age must be set in HSTS annotation" := rfl
    rw [h0] at hcontra
    exact Except.noConfusion hcontra

/-- C5 amended: the annotation string
`max-age=3600; includeSubDomains; preload` parses into
maxAge 3600, includeSubDomains true, preload true. -/
theorem C5_amended_roundtrip :
    hstsConfigFromRoute routeEdge = .ok ⟨3600, true, true⟩ := rfl

/-- C6: an annotation whose normalized form contains no
`max-age=<digits>` substring makes the parser fail with the
`max-age must be set` ParseError, and when a requirement matches the
route (first, after non-matching ones) that parse failure is the denial
reason. -/
theorem C6_missing_max_age (route : Route)
    (h : containsMaxAgePattern (trimmedAnn route) = false) :
    hstsConfigFromRoute route = .error "max-age must be set in HSTS annotation" ∧
    ∀ (ext : ExternalLib) (ns : Namespace) (tlsc : TLSConfig)
      (pre rest : List RequiredHSTSPolicy) (r1 : RequiredHSTSPolicy),
      route.tls = some tlsc →
      (tlsc.termination = TLSTerminationEdge ∨ tlsc.termination = TLSTerminationReencrypt) →
      (∀ q ∈ pre, ∃ mN mD,
        requiredNamespaceDomainMatchesRoute ext q route ns = .ok (mN, mD) ∧ (mN && mD) = false) →
      requiredNamespaceDomainMatchesRoute ext r1 route ns = .ok (true, true) →
      isRouteHSTSAllowed ext ⟨pre ++ r1 :: rest⟩ route ns =
        .error "max-age must be set in HSTS annotation" := by
  have hparse := hstsConfigFromRoute_error_of_no_pattern route h
  refine ⟨hparse, ?_⟩
  intro ext ns tlsc pre rest r1 htls hterm hpre hr1
  rw [isRouteHSTSAllowed_eq_process ext ⟨pre ++ r1 :: rest⟩ route ns tlsc htls hterm]
  show processHSTSRequirements ext route ns (pre ++ r1 :: rest) = _
  rw [processHSTSRequirements_append ext route ns pre _ hpre,
      processHSTSRequirements_cons_match ext route ns r1 _ hr1, hparse]

/-- C6 witness at the input `includeSubDomains` with a matching
requirement: the parser and the end-to-end evaluator both produce the
ParseError. -/
theorem C6_missing_max_age_witness :
    hstsConfigFromRoute routeNoMaxAge = .error "max-age must be set in HSTS annotation" ∧
    isRouteHSTSAllowed extLiteral ⟨[reqPermissive]⟩ routeNoMaxAge nsFixture =
      .error "max-age must be set in HSTS annotation" := by
  have hc := C6_missing_max_age routeNoMaxAge (by decide)
  exact ⟨hc.1, hc.2 extLiteral nsFixture ⟨"edge"⟩ [] [] reqPermissive rfl (Or.inl rfl) (by simp) rfl⟩

/-- C9: a structurally invalid namespace selector on the
currently-examined requirement (all earlier requirements not matching)
halts evaluation: the selector error is the evaluator's result, the
requirement is not treated as a non-match, and requirements after it are
never examined (the result is independent of `rest`). -/
theorem C9_selector_error_propagates (ext : ExternalLib) (ing : Ingress) (route : Route)
    (ns : Namespace) (tlsc : TLSConfig) (pre rest : List RequiredHSTSPolicy)
    (r : RequiredHSTSPolicy) (sel : LabelSelector) (e : String)
    (htls : route.tls = some tlsc)
    (hterm : tlsc.termination = TLSTerminationEdge ∨ tlsc.termination = TLSTerminationReencrypt)
    (hing : ing.requiredHSTSPolicies = pre ++ r :: rest)
    (hpre : ∀ q ∈ pre, ∃ mN mD,
      requiredNamespaceDomainMatchesRoute ext q route ns = .ok (mN, mD) ∧ (mN && mD) = false)
    (hsel : r.namespaceSelector = some sel)
    (herr : ext.labelSelectorAsSelector sel = .error e) :
    isRouteHSTSAllowed ext ing route ns = .error e := by
  rw [isRouteHSTSAllowed_eq_process ext ing route ns tlsc htls hterm, hing,
      processHSTSRequirements_append ext route ns pre _ hpre]
  have hr : requiredNamespaceDomainMatchesRoute ext r route ns = .error e := by
    simp only [requiredNamespaceDomainMatchesRoute, matchesNamespaceSelector,
      getParsedNamespaceSelector, hsel, herr]
  simp only [processHSTSRequirements, hr]

/-- C9 witness: a malformed-operator selector on the first requirement
denies with the selector error; the later violated requirement is never
examined. -/
theorem C9_selector_error_propagates_witness :
    isRouteHSTSAllowed extBadSelector ⟨[reqWithSelector, reqStrict]⟩ routeEdge nsFixture =
      .error "\"BadOperator\" is not a valid label selector operator" :=
  C9_selector_error_propagates extBadSelector ⟨[reqWithSelector, reqStrict]⟩ routeEdge nsFixture
    ⟨"edge"⟩ [] [reqStrict] reqWithSelector ⟨[], [⟨"team", "BadOperator", []⟩]⟩
    "\"BadOperator\" is not a valid label selector operator"
    rfl (Or.inl rfl) rfl (by simp) rfl rfl

/-- C10: a present TLS config with empty-string termination falls into
the unconditional-allow branch (same as Passthrough); the
`termination type is empty` denial is produced when the TLS config
itself is absent. -/
theorem C10_empty_termination_allowed :
    (∀ (ext : ExternalLib) (ing : Ingress) (route : Route) (ns : Namespace) (tlsc : TLSConfig),
      route.tls = some tlsc → tlsc.termination = "" →
      isRouteHSTSAllowed ext ing route ns = .ok ()) ∧
    (∀ (ext : ExternalLib) (ing : Ingress) (route : Route) (ns : Namespace),
      route.tls = none →
      isRouteHSTSAllowed ext ing route ns =
        .error "termination type is empty, must be edge or reencrypt") := by
  constructor
  · intro ext ing route ns tlsc htls hterm
    exact allowed_of_other_termination ext ing route ns tlsc htls
      (by rw [hterm]; decide) (by rw [hterm]; decide)
  · exact fun ext ing route ns htls => denied_of_no_tls ext ing route ns htls

/-- C10 witness: empty termination allowed; absent TLS denied. -/
theorem C10_empty_termination_allowed_witness :
    isRouteHSTSAllowed extLiteral ⟨[reqStrict]⟩ routeEmptyTermination nsFixture = .ok () ∧
    isRouteHSTSAllowed extLiteral ⟨[reqStrict]⟩ routeNoTLS nsFixture =
      .error "termination type is empty, must be edge or reencrypt" :=
  ⟨C10_empty_termination_allowed.1 extLiteral ⟨[reqStrict]⟩ routeEmptyTermination nsFixture
      ⟨""⟩ rfl rfl,
   C10_empty_termination_allowed.2 extLiteral ⟨[reqStrict]⟩ routeNoTLS nsFixture rfl⟩

/-- C7: inclusive max-age bounds.  With smallest 100 and largest 200
(both set, non-negative): 99 is denied with the below-minimum reason and
201 with the exceeds-maximum reason for every such requirement; 100 and
200 pass when the enum policies are NoOpinion.  A largest or smallest
bound that is unset, or set negative, imposes no constraint (its check
always passes). -/
theorem C7_max_age_bounds :
    (∀ (requirement : RequiredHSTSPolicy) (p i : Bool),
      requirement.maxAge.smallestMaxAge = some 100 →
      requirement.maxAge.largestMaxAge = some 200 →
      hstsConfig.meetsRequirements ⟨99, p, i⟩ requirement =
        .error "does not match minimum age 100" ∧
      hstsConfig.meetsRequirements ⟨201, p, i⟩ requirement =
        .error "does not match maximum age 200" ∧
      (requirement.preloadPolicy = NoOpinionPreloadPolicy →
       requirement.includeSubDomainsPolicy = NoOpinionIncludeSubDomains →
       hstsConfig.meetsRequirements ⟨100, p, i⟩ requirement = .ok () ∧
       hstsConfig.meetsRequirements ⟨200, p, i⟩ requirement = .ok ())) ∧
    (∀ (requirement : RequiredHSTSPolicy) (c : hstsConfig),
      (requirement.maxAge.largestMaxAge = none ∨
       ∃ v, requirement.maxAge.largestMaxAge = some v ∧ v < 0) →
      checkLargest c requirement = .ok ()) ∧
    (∀ (requirement : RequiredHSTSPolicy) (c : hstsConfig),
      (requirement.maxAge.smallestMaxAge = none ∨
       ∃ v, requirement.maxAge.smallestMaxAge = some v ∧ v < 0) →
      checkSmallest c requirement = .ok ()) := by
  refine ⟨?_, ?_, ?_⟩
  · intro requirement p i hs hl
    have hL99 : checkLargest ⟨99, p, i⟩ requirement = .ok () := by
      simp [checkLargest, hl]
    have hS99 : checkSmallest ⟨99, p, i⟩ requirement =
        .error "does not match minimum age 100" := by
      simp [checkSmallest, hs]
      rfl
    have hL201 : checkLargest ⟨201, p, i⟩ requirement =
        .error "does not match maximum age 200" := by
      simp [checkLargest, hl]
      rfl
    refine ⟨?_, ?_, ?_⟩
    · simp only [hstsConfig.meetsRequirements, hL99, hS99]
    · simp only [hstsConfig.meetsRequirements, hL201]
    · intro hp hi
      have hP : ∀ m : Int, checkPreloadPolicy ⟨m, p, i⟩ requirement = .ok () := by
        intro m
        simp [checkPreloadPolicy, hp, NoOpinionPreloadPolicy]
      have hI : ∀ m : Int, checkIncludeSubDomainsPolicy ⟨m, p, i⟩ requirement = .ok () := by
        intro m
        simp [checkIncludeSubDomainsPolicy, hi, NoOpinionIncludeSubDomains]
      have hL100 : checkLargest ⟨100, p, i⟩ requirement = .ok () := by
        simp [checkLargest, hl]
      have hS100 : checkSmallest ⟨100, p, i⟩ requirement = .ok () := by
        simp [checkSmallest, hs]
      have hL200 : checkLargest ⟨200, p, i⟩ requirement = .ok () := by
        simp [checkLargest, hl]
      have hS200 : checkSmallest ⟨200, p, i⟩ requirement = .ok () := by
        simp [checkSmallest, hs]
      constructor
      · simp only [hstsConfig.meetsRequirements, hL100, hS100, hP, hI]
      · simp only [hstsConfig.meetsRequirements, hL200, hS200, hP, hI]
  · intro requirement c h
    rcases h with h | ⟨v, hv, hneg⟩
    · simp [checkLargest, h]
    · have hno : ¬(0 ≤ v ∧ v < c.maxAge) := by omega
      simp [checkLargest, hv, hno]
  · intro requirement c h
    rcases h with h | ⟨v, hv, hneg⟩
    · simp [checkSmallest, h]
    · have hno : ¬(0 ≤ v ∧ c.maxAge < v) := by omega
      simp [checkSmallest, hv, hno]

/-- C7 witness at the bounds-100-200 requirement and an unbounded
requirement. -/
theorem C7_max_age_bounds_witness :
    hstsConfig.meetsRequirements ⟨99, false, false⟩ reqBounds =
      .error "does not match minimum age 100" ∧
    hstsConfig.meetsRequirements ⟨201, false, false⟩ reqBounds =
      .error "does not match maximum age 200" ∧
    hstsConfig.meetsRequirements ⟨100, false, false⟩ reqBounds = .ok () ∧
    hstsConfig.meetsRequirements ⟨200, false, false⟩ reqBounds = .ok () ∧
    checkLargest ⟨999999999, false, false⟩ reqNoBounds = .ok () := by
  obtain ⟨h1, h2, h3⟩ := C7_max_age_bounds
  obtain ⟨ha, hb, hc⟩ := h1 reqBounds false false rfl rfl
  obtain ⟨hd, he⟩ := hc rfl rfl
  exact ⟨ha, hb, hd, he, h2 reqNoBounds ⟨999999999, false, false⟩ (Or.inl rfl)⟩

/-- C8: three-way boolean policies.  RequirePreload with preload false
fails validation; RequireNoPreload with preload true fails; NoOpinion
imposes no preload constraint (the result is independent of the preload
bit); and the includeSubDomains policy behaves identically on the
includeSubDomains bit. -/
theorem C8_three_way_policies :
    (∀ (c : hstsConfig) (requirement : RequiredHSTSPolicy),
      requirement.preloadPolicy = RequirePreloadPolicy → c.preload = false →
      ∃ e, hstsConfig.meetsRequirements c requirement = .error e) ∧
    (∀ (c : hstsConfig) (requirement : RequiredHSTSPolicy),
      requirement.preloadPolicy = RequireNoPreloadPolicy → c.preload = true →
      ∃ e, hstsConfig.meetsRequirements c requirement = .error e) ∧
    (∀ (c : hstsConfig) (requirement : RequiredHSTSPolicy) (b : Bool),
      requirement.preloadPolicy = NoOpinionPreloadPolicy →
      hstsConfig.meetsRequirements ⟨c.maxAge, b, c.includeSubDomains⟩ requirement =
        hstsConfig.meetsRequirements c requirement) ∧
    (∀ (c : hstsConfig) (requirement : RequiredHSTSPolicy),
      requirement.includeSubDomainsPolicy = RequireIncludeSubDomains →
      c.includeSubDomains = false →
      ∃ e, hstsConfig.meetsRequirements c requirement = .error e) ∧
    (∀ (c : hstsConfig) (requirement : RequiredHSTSPolicy),
      requirement.includeSubDomainsPolicy = RequireNoIncludeSubDomains →
      c.includeSubDomains = true →
      ∃ e, hstsConfig.meetsRequirements c requirement = .error e) ∧
    (∀ (c : hstsConfig) (requirement : RequiredHSTSPolicy) (b : Bool),
      requirement.includeSubDomainsPolicy = NoOpinionIncludeSubDomains →
      hstsConfig.meetsRequirements ⟨c.maxAge, c.preload, b⟩ requirement =
        hstsConfig.meetsRequirements c requirement) := by
  have hfail : ∀ (c : hstsConfig) (requirement : RequiredHSTSPolicy),
      (checkPreloadPolicy c requirement = .ok () →
        ∃ e, checkIncludeSubDomainsPolicy c requirement = .error e) →
      ∃ e, hstsConfig.meetsRequirements c requirement = .error e := by
    intro c requirement h
    unfold hstsConfig.meetsRequirements
    cases hL : checkLargest c requirement with
    | error e => exact ⟨e, rfl⟩
    | ok u =>
      cases u
      cases hS : checkSmallest c requirement with
      | error e => exact ⟨e, rfl⟩
      | ok u =>
        cases u
        cases hP : checkPreloadPolicy c requirement with
        | error e => exact ⟨e, rfl⟩
        | ok u =>
          cases u
          obtain ⟨e, he⟩ := h hP
          exact ⟨e, by rw [he]⟩
  have hfailP : ∀ (c : hstsConfig) (requirement : RequiredHSTSPolicy) (e : String),
      checkPreloadPolicy c requirement = .error e →
      ∃ e, hstsConfig.meetsRequirements c requirement = .error e := by
    intro c requirement e hP
    unfold hstsConfig.meetsRequirements
    cases hL : checkLargest c requirement with
    | error e2 => exact ⟨e2, rfl⟩
    | ok u =>
      cases u
      cases hS : checkSmallest c requirement with
      | error e2 => exact ⟨e2, rfl⟩
      | ok u =>
        cases u
        rw [hP]
        exact ⟨e, rfl⟩
  refine ⟨?_, ?_, ?_, ?_, ?_, ?_⟩
  · intro c requirement hpol hpre
    refine hfailP c requirement "preload must be specified" ?_
    simp [checkPreloadPolicy, hpol, hpre, RequirePreloadPolicy, NoOpinionPreloadPolicy]
  · intro c requirement hpol hpre
    refine hfailP c requirement "preload must not be specified" ?_
    simp [checkPreloadPolicy, hpol, hpre, RequireNoPreloadPolicy, RequirePreloadPolicy,
      NoOpinionPreloadPolicy]
  · intro c requirement b hpol
    obtain ⟨m, p, i⟩ := c
    have hP1 : checkPreloadPolicy ⟨m, b, i⟩ requirement = .ok () := by
      simp [checkPreloadPolicy, hpol, NoOpinionPreloadPolicy]
    have hP2 : checkPreloadPolicy ⟨m, p, i⟩ requirement = .ok () := by
      simp [checkPreloadPolicy, hpol, NoOpinionPreloadPolicy]
    have hLeq : checkLargest ⟨m, b, i⟩ requirement = checkLargest ⟨m, p, i⟩ requirement := rfl
    have hSeq : checkSmallest ⟨m, b, i⟩ requirement = checkSmallest ⟨m, p, i⟩ requirement := rfl
    have hIeq : checkIncludeSubDomainsPolicy ⟨m, b, i⟩ requirement =
        checkIncludeSubDomainsPolicy ⟨m, p, i⟩ requirement := rfl
    simp only [hstsConfig.meetsRequirements, hLeq, hSeq, hP1, hP2, hIeq]
  · intro c requirement hpol hinc
    refine hfail c requirement (fun _ => ⟨"includeSubDomains must be specified", ?_⟩)
    simp [checkIncludeSubDomainsPolicy, hpol, hinc, RequireIncludeSubDomains,
      NoOpinionIncludeSubDomains]
  · intro c requirement hpol hinc
    refine hfail c requirement (fun _ => ⟨"includeSubDomains must not be specified", ?_⟩)
    simp [checkIncludeSubDomainsPolicy, hpol, hinc, RequireNoIncludeSubDomains,
      RequireIncludeSubDomains, NoOpinionIncludeSubDomains]
  · intro c requirement b hpol
    obtain ⟨m, p, i⟩ := c
    have hI1 : checkIncludeSubDomainsPolicy ⟨m, p, b⟩ requirement = .ok () := by
      simp [checkIncludeSubDomainsPolicy, hpol, NoOpinionIncludeSubDomains]
    have hI2 : checkIncludeSubDomainsPolicy ⟨m, p, i⟩ requirement = .ok () := by
      simp [checkIncludeSubDomainsPolicy, hpol, NoOpinionIncludeSubDomains]
    have hLeq : checkLargest ⟨m, p, b⟩ requirement = checkLargest ⟨m, p, i⟩ requirement := rfl
    have hSeq : checkSmallest ⟨m, p, b⟩ requirement = checkSmallest ⟨m, p, i⟩ requirement := rfl
    have hPeq : checkPreloadPolicy ⟨m, p, b⟩ requirement =
        checkPreloadPolicy ⟨m, p, i⟩ requirement := rfl
    simp only [hstsConfig.meetsRequirements, hLeq, hSeq, hPeq, hI1, hI2]

/-- C8 witness: Require/RequireNot denials and NoOpinion independence at
concrete requirements. -/
theorem C8_three_way_policies_witness :
    (∃ e, hstsConfig.meetsRequirements ⟨3600, false, false⟩
      (⟨none, [], ⟨none, none⟩, "RequirePreload", "NoOpinion"⟩ : RequiredHSTSPolicy) =
      .error e) ∧
    (∃ e, hstsConfig.meetsRequirements ⟨3600, true, false⟩
      (⟨none, [], ⟨none, none⟩, "RequireNoPreload", "NoOpinion"⟩ : RequiredHSTSPolicy) =
      .error e) ∧
    hstsConfig.meetsRequirements ⟨3600, true, false⟩ reqNoBounds =
      hstsConfig.meetsRequirements ⟨3600, false, false⟩ reqNoBounds ∧
    (∃ e, hstsConfig.meetsRequirements ⟨3600, false, false⟩
      (⟨none, [], ⟨none, none⟩, "NoOpinion", "RequireIncludeSubDomains"⟩ : RequiredHSTSPolicy) =
      .error e) ∧
    (∃ e, hstsConfig.meetsRequirements ⟨3600, false, true⟩
      (⟨none, [], ⟨none, none⟩, "NoOpinion", "RequireNoIncludeSubDomains"⟩ : RequiredHSTSPolicy) =
      .error e) ∧
    hstsConfig.meetsRequirements ⟨3600, false, true⟩ reqNoBounds =
      hstsConfig.meetsRequirements ⟨3600, false, false⟩ reqNoBounds := by
  obtain ⟨h1, h2, h3, h4, h5, h6⟩ := C8_three_way_policies
  exact ⟨h1 ⟨3600, false, false⟩ _ rfl rfl,
         h2 ⟨3600, true, false⟩ _ rfl rfl,
         h3 ⟨3600, false, false⟩ reqNoBounds true rfl,
         h4 ⟨3600, false, false⟩ _ rfl rfl,
         h5 ⟨3600, false, true⟩ _ rfl rfl,
         h6 ⟨3600, false, false⟩ reqNoBounds true rfl⟩

end RequiredRouteAnnotations
